import Mathlib

/-!
# Verification development for `script.js`

A shallow embedding of the client-side units of `src/Sonnet/script.js`
(`ThemeManager`, `MobileNav`, `HeaderEffect`, `AnimationObserver`,
`EventCountdown`, `PerformanceOptimizer`) together with the properties the
specification states about them.

Modelling conventions:

* a DOM `classList` is a list of class names; `add`, `remove`, `toggle` and
  `contains` follow the `DOMTokenList` operations;
* `localStorage.getItem` returns `null` (here `none`) or a string;
* an object with mutable fields becomes a structure, a method becomes a
  function from the old state to the new one;
* time values (`Date.getTime()`) are integers (milliseconds), scroll offsets
  are rationals (CSS pixels may be fractional).
-/

namespace Script

/-! ## DOM token lists -/

/-- `classList.contains(c)`. -/
def classContains (cl : List String) (c : String) : Bool :=
  cl.contains c

/-- `classList.add(c)`: the token is appended unless it is already there. -/
def classAdd (cl : List String) (c : String) : List String :=
  if cl.contains c then cl else cl ++ [c]

/-- `classList.remove(c)`: every occurrence of the token is dropped. -/
def classRemove (cl : List String) (c : String) : List String :=
  cl.filter (fun x => x != c)

/-- `classList.toggle(c)`: remove the token when present, add it otherwise. -/
def classToggle (cl : List String) (c : String) : List String :=
  if cl.contains c then classRemove cl c else classAdd cl c

/-! ## ThemeManager (lines 2-37) -/

/-- The part of the browser a `ThemeManager` reads and writes, together with
the object's own field `currentTheme`.

* `storedTheme`    : the `'theme'` entry of `localStorage` (`none` = absent);
* `dataTheme`      : the `data-theme` attribute of `document.documentElement`;
* `iconClass`      : `className` of the `<i>` inside the toggle button;
* `bodyTransition` : `document.body.style.transition`;
* `pendingTimers`  : callbacks scheduled by `setTimeout(..., 300)` not yet run;
* `clickListeners` : click listeners registered on the toggle button. -/
structure ThemeManager where
  currentTheme : String
  storedTheme : Option String
  dataTheme : Option String
  iconClass : String
  bodyTransition : String
  pendingTimers : Nat
  clickListeners : Nat
  deriving DecidableEq, Repr

/-- The page as delivered by the server, before any script ran: the
`data-theme` attribute and the icon class found in the markup. -/
structure Page where
  dataTheme : Option String
  iconClass : String
  deriving DecidableEq, Repr

/-- JavaScript `x || d` for `x` a string or `null`: `null` and the empty
string are falsy. -/
def orDefault (x : Option String) (d : String) : String :=
  match x with
  | none => d
  | some s => if s = "" then d else s

/-- `updateThemeIcon()` (lines 33-36). -/
def ThemeManager.updateThemeIcon (m : ThemeManager) : ThemeManager :=
  { m with iconClass := if m.currentTheme = "light" then "fas fa-moon" else "fas fa-sun" }

/-- `setTheme(theme)` (lines 15-20). -/
def ThemeManager.setTheme (m : ThemeManager) (theme : String) : ThemeManager :=
  let m1 := { m with dataTheme := some theme }
  let m2 := { m1 with currentTheme := theme }
  let m3 := { m2 with storedTheme := some theme }
  m3.updateThemeIcon

/-- `init()` (lines 9-13). -/
def ThemeManager.init (m : ThemeManager) : ThemeManager :=
  let m1 := m.setTheme m.currentTheme
  let m2 := { m1 with clickListeners := m1.clickListeners + 1 }
  m2.updateThemeIcon

/-- `new ThemeManager()` (lines 3-7), run on a freshly loaded page whose
`localStorage` holds `stored` under `'theme'`. -/
def ThemeManager.construct (page : Page) (stored : Option String) : ThemeManager :=
  ThemeManager.init
    { currentTheme := orDefault stored "light"
      storedTheme := stored
      dataTheme := page.dataTheme
      iconClass := page.iconClass
      bodyTransition := ""
      pendingTimers := 0
      clickListeners := 0 }

/-- `toggleTheme()` (lines 22-31). -/
def ThemeManager.toggleTheme (m : ThemeManager) : ThemeManager :=
  let newTheme := if m.currentTheme = "light" then "dark" else "light"
  let m1 := m.setTheme newTheme
  { m1 with bodyTransition := "all 0.3s ease", pendingTimers := m1.pendingTimers + 1 }

/-- The callback of `setTimeout` in `toggleTheme` (lines 28-30). -/
def ThemeManager.transitionTimeout (m : ThemeManager) : ThemeManager :=
  if m.pendingTimers = 0 then m
  else { m with bodyTransition := "", pendingTimers := m.pendingTimers - 1 }

/-- `n` successive calls of `toggleTheme`. -/
def ThemeManager.toggleTimes : Nat → ThemeManager → ThemeManager
  | 0, m => m
  | n + 1, m => ThemeManager.toggleTimes n m.toggleTheme

/-- What a user does to the theme between two observations: a click on the
toggle, the 300 ms timer firing, or a reload of the page (which constructs a
new `ThemeManager` over the storage the previous one left). -/
inductive ThemeAction where
  | toggle
  | timeout
  | reload (page : Page)
  deriving DecidableEq, Repr

/-- One action on a running `ThemeManager`. -/
def ThemeManager.act (m : ThemeManager) : ThemeAction → ThemeManager
  | .toggle => m.toggleTheme
  | .timeout => m.transitionTimeout
  | .reload page => ThemeManager.construct page m.storedTheme

/-- A whole session: the first page load over `stored`, then the actions. -/
def ThemeManager.session (page : Page) (stored : Option String)
    (actions : List ThemeAction) : ThemeManager :=
  actions.foldl ThemeManager.act (ThemeManager.construct page stored)

/-- The contents of the `'theme'` entry for which the constructor ends with a
theme that is one of the two enumerated names. -/
def enumeratedEntry (stored : Option String) : Prop :=
  stored = none ∨ stored = some "" ∨ stored = some "light" ∨ stored = some "dark"

instance (stored : Option String) : Decidable (enumeratedEntry stored) := by
  unfold enumeratedEntry; infer_instance

/-- The state invariant of a running `ThemeManager`: the persisted value is
the current theme, and the current theme is a non-empty string. -/
def ThemeManager.Synced (m : ThemeManager) : Prop :=
  m.storedTheme = some m.currentTheme ∧ m.currentTheme ≠ ""

/-! ## MobileNav (lines 40-73) -/

/-- The class lists of the two elements a `MobileNav` touches:
`.nav-menu` and `#nav-burger`. -/
structure MobileNav where
  navMenu : List String
  burger : List String
  deriving DecidableEq, Repr

/-- `toggleMenu()` (lines 64-67). -/
def MobileNav.toggleMenu (s : MobileNav) : MobileNav :=
  let s1 := { s with navMenu := classToggle s.navMenu "active" }
  { s1 with burger := classToggle s1.burger "active" }

/-- `closeMenu()` (lines 69-72). -/
def MobileNav.closeMenu (s : MobileNav) : MobileNav :=
  let s1 := { s with navMenu := classRemove s.navMenu "active" }
  { s1 with burger := classRemove s1.burger "active" }

/-- The click listener on the burger (line 49). -/
def MobileNav.onBurgerClick (s : MobileNav) : MobileNav :=
  s.toggleMenu

/-- The click listener on each `.nav-link` (lines 52-54). -/
def MobileNav.onLinkClick (s : MobileNav) : MobileNav :=
  s.closeMenu

/-- The click listener on `document` (lines 57-61). `inBurger` is
`this.burger.contains(e.target)`, `inNavMenu` is
`this.navMenu.contains(e.target)`. -/
def MobileNav.onDocumentClick (s : MobileNav) (inBurger inNavMenu : Bool) : MobileNav :=
  if !inBurger && !inNavMenu then s.closeMenu else s

/-- A click whose target lies inside the burger: the burger's listener runs,
then the event bubbles to `document`. -/
def MobileNav.clickBurger (s : MobileNav) (inNavMenu : Bool) : MobileNav :=
  s.onBurgerClick.onDocumentClick true inNavMenu

/-- A click on a navigation link: the link's listener runs, then the event
bubbles to `document`. -/
def MobileNav.clickLink (s : MobileNav) (inBurger inNavMenu : Bool) : MobileNav :=
  s.onLinkClick.onDocumentClick inBurger inNavMenu

/-- The menu is open for styling when the element carries `'active'`. -/
def MobileNav.menuActive (s : MobileNav) : Bool :=
  classContains s.navMenu "active"

/-- The burger icon carries `'active'`. -/
def MobileNav.burgerActive (s : MobileNav) : Bool :=
  classContains s.burger "active"

/-! ## HeaderEffect (lines 101-131) -/

/-- The header's class list and inline `transform`, and the object's field
`lastScrollY`. -/
structure HeaderEffect where
  classList : List String
  transform : String
  lastScrollY : ℚ
  deriving DecidableEq

/-- `handleScroll()` (lines 112-130); `scrollY` is the value of
`window.scrollY` when the handler runs. -/
def HeaderEffect.handleScroll (h : HeaderEffect) (scrollY : ℚ) : HeaderEffect :=
  let currentScrollY := scrollY
  let h1 :=
    if currentScrollY > 50 then { h with classList := classAdd h.classList "scrolled" }
    else { h with classList := classRemove h.classList "scrolled" }
  let h2 :=
    if currentScrollY > h1.lastScrollY ∧ currentScrollY > 200 then
      { h1 with transform := "translateY(-100%)" }
    else { h1 with transform := "translateY(0)" }
  { h2 with lastScrollY := currentScrollY }

/-- The header carries `'scrolled'`. -/
def HeaderEffect.scrolled (h : HeaderEffect) : Bool :=
  classContains h.classList "scrolled"

/-! ## AnimationObserver (lines 134-160) -/

/-- An `IntersectionObserverEntry` as far as the callback reads it: the
target element (elements are numbered) and `isIntersecting`. -/
structure Entry where
  target : Nat
  isIntersecting : Bool
  deriving DecidableEq, Repr

/-- An entry that triggers the animation of `e`. -/
def Entry.triggers (x : Entry) (e : Nat) : Prop :=
  x.isIntersecting = true ∧ x.target = e

/-- The state the observer's callback acts on.

* `observed`  : the observer's observation targets;
* `animateIn` : the elements whose class list holds `'animate-in'`;
* `addCalls`  : every call `classList.add('animate-in')` made so far, by
  target, in order (a trace; the code does not read it). -/
structure AnimationObserver where
  observed : List Nat
  animateIn : List Nat
  addCalls : List Nat
  deriving DecidableEq, Repr

/-- `observer.observe(el)`: a target already observed is not added again. -/
def AnimationObserver.observe (s : AnimationObserver) (el : Nat) : AnimationObserver :=
  if s.observed.contains el then s else { s with observed := s.observed ++ [el] }

/-- `observer.unobserve(el)`. -/
def AnimationObserver.unobserve (s : AnimationObserver) (el : Nat) : AnimationObserver :=
  { s with observed := s.observed.filter (fun x => x != el) }

/-- `el.classList.add('animate-in')`: the class list is a set, the call is
recorded in the trace either way. -/
def AnimationObserver.addAnimateIn (s : AnimationObserver) (el : Nat) : AnimationObserver :=
  { s with
    animateIn := if s.animateIn.contains el then s.animateIn else s.animateIn ++ [el]
    addCalls := s.addCalls ++ [el] }

/-- The body of `entries.forEach` (lines 146-151). -/
def AnimationObserver.onEntry (s : AnimationObserver) (entry : Entry) : AnimationObserver :=
  if entry.isIntersecting then
    (s.addAnimateIn entry.target).unobserve entry.target
  else s

/-- The observer callback (lines 145-152) on one batch of entries. -/
def AnimationObserver.callback (s : AnimationObserver) (entries : List Entry) :
    AnimationObserver :=
  entries.foldl AnimationObserver.onEntry s

/-- `init()` (lines 143-159): `supported` is `'IntersectionObserver' in window`,
`cards` the result of `querySelectorAll`. No element carries `'animate-in'`
before the observer runs. -/
def AnimationObserver.init (supported : Bool) (cards : List Nat) : AnimationObserver :=
  let s0 : AnimationObserver := { observed := [], animateIn := [], addCalls := [] }
  if supported then cards.foldl AnimationObserver.observe s0 else s0

/-- A batch the browser may deliver in state `s`: every entry is for an
element observed when the batch is delivered. -/
def AnimationObserver.deliverable (s : AnimationObserver) (entries : List Entry) : Bool :=
  entries.all (fun e => s.observed.contains e.target)

/-- Every batch of the sequence is deliverable in the state it meets. -/
def AnimationObserver.validRun : AnimationObserver → List (List Entry) → Bool
  | _, [] => true
  | s, b :: bs => s.deliverable b && AnimationObserver.validRun (s.callback b) bs

/-- The state after the callback ran on each batch in turn. -/
def AnimationObserver.run (s : AnimationObserver) (batches : List (List Entry)) :
    AnimationObserver :=
  batches.foldl AnimationObserver.callback s

/-- Each batch holds at most one entry per target. -/
def onePerTarget (batches : List (List Entry)) : Bool :=
  batches.all (fun b => decide (b.map Entry.target).Nodup)

/-- What holds of every state the callback can produce, whatever the entries:
the class was added to each element at most once, an element carrying the
class is not observed, and the elements carrying the class are those
`classList.add` was called on. -/
def AnimationObserver.Settled (s : AnimationObserver) : Prop :=
  s.animateIn.Nodup ∧ (∀ e ∈ s.animateIn, e ∉ s.observed) ∧
    (∀ e, e ∈ s.animateIn ↔ e ∈ s.addCalls)

/-- What holds in addition when batches are deliverable and hold one entry per
target: no element saw two calls of `classList.add`. -/
def AnimationObserver.Once (s : AnimationObserver) : Prop :=
  s.addCalls.Nodup ∧ (∀ e ∈ s.addCalls, e ∉ s.observed)

/-! ## EventCountdown (lines 163-192) -/

/-- `Math.floor(a / b)` for integers `a`, `b`: the quotient rounded down
(`floorDiv_eq_floor` below relates it to the floor of the rational quotient).
For operands below `2^53` (all time distances are) the floating-point
quotient rounds down to the same integer. -/
def floorDiv (a b : Int) : Int :=
  Int.fdiv a b

/-- JavaScript `a % b` on integers: the remainder has the sign of `a`. -/
def jsMod (a b : Int) : Int :=
  Int.tmod a b

/-- The four numbers `updateCountdown` renders. -/
structure Remaining where
  days : Int
  hours : Int
  minutes : Int
  seconds : Int
  deriving DecidableEq, Repr

/-- Lines 180-183. -/
def remaining (distance : Int) : Remaining :=
  { days := floorDiv distance (1000 * 60 * 60 * 24)
    hours := floorDiv (jsMod distance (1000 * 60 * 60 * 24)) (1000 * 60 * 60)
    minutes := floorDiv (jsMod distance (1000 * 60 * 60)) (1000 * 60)
    seconds := floorDiv (jsMod distance (1000 * 60)) 1000 }

/-- The template literal of line 188. -/
def Remaining.render (r : Remaining) : String :=
  toString r.days ++ "d " ++ toString r.hours ++ "h " ++ toString r.minutes ++ "m "
    ++ toString r.seconds ++ "s"

/-- A rendered value counted in seconds. -/
def Remaining.totalSeconds (r : Remaining) : Int :=
  r.days * 86400 + r.hours * 3600 + r.minutes * 60 + r.seconds

/-- Lexicographic order on (days, hours, minutes, seconds). -/
def Remaining.lexLt (a b : Remaining) : Prop :=
  a.days < b.days ∨ (a.days = b.days ∧
    (a.hours < b.hours ∨ (a.hours = b.hours ∧
      (a.minutes < b.minutes ∨ (a.minutes = b.minutes ∧ a.seconds < b.seconds)))))

instance (a b : Remaining) : Decidable (a.lexLt b) := by
  unfold Remaining.lexLt; infer_instance

/-- The object's field: `eventDate.getTime()`, in milliseconds. -/
structure EventCountdown where
  eventDate : Int
  deriving DecidableEq, Repr

/-- The constructor (lines 164-167): `2025-09-27T14:00:00+08:00` is
1758952800000 ms after the epoch. -/
def EventCountdown.construct : EventCountdown :=
  { eventDate := 1758952800000 }

/-- `updateCountdown()` (lines 175-191). `now` is `new Date().getTime()`,
`countdownEl` the `innerHTML` of `#countdown` (`none` when the page has no
such element); the result is the element's content afterwards. -/
def EventCountdown.updateCountdown (c : EventCountdown) (now : Int)
    (countdownEl : Option String) : Option String :=
  let distance := c.eventDate - now
  if distance > 0 then
    match countdownEl with
    | some _ => some (remaining distance).render
    | none => none
  else countdownEl

/-! ## PerformanceOptimizer (lines 195-223) -/

/-- The closure variable `ticking`, the number of callbacks handed to
`requestAnimationFrame` that have not run yet, and the custom property
`--animation-duration` of the root element. -/
structure PerformanceOptimizer where
  ticking : Bool
  pendingFrames : Nat
  animationDuration : Option String
  deriving DecidableEq, Repr

/-- `init()` (lines 200-222); `prefersReducedMotion` is the media query's
`matches`, `duration` the property's value before. -/
def PerformanceOptimizer.init (prefersReducedMotion : Bool) (duration : Option String) :
    PerformanceOptimizer :=
  { ticking := false
    pendingFrames := 0
    animationDuration := if prefersReducedMotion then some "0.01ms" else duration }

/-- `optimizedScrollHandler` (lines 211-219). -/
def PerformanceOptimizer.optimizedScrollHandler (s : PerformanceOptimizer) :
    PerformanceOptimizer :=
  if !s.ticking then
    let s1 := { s with pendingFrames := s.pendingFrames + 1 }
    { s1 with ticking := true }
  else s

/-- A frame: the browser runs one pending callback (lines 213-216), if any. -/
def PerformanceOptimizer.frame (s : PerformanceOptimizer) : PerformanceOptimizer :=
  if s.pendingFrames = 0 then s
  else { s with pendingFrames := s.pendingFrames - 1, ticking := false }

/-- The two steps of the throttle. -/
inductive ThrottleEvent where
  | scroll
  | frame
  deriving DecidableEq, Repr

/-- One step. -/
def PerformanceOptimizer.step (s : PerformanceOptimizer) : ThrottleEvent → PerformanceOptimizer
  | .scroll => s.optimizedScrollHandler
  | .frame => s.frame

/-- The state after a sequence of steps. -/
def PerformanceOptimizer.run (s : PerformanceOptimizer) (events : List ThrottleEvent) :
    PerformanceOptimizer :=
  events.foldl PerformanceOptimizer.step s

/-- The throttle invariant: at most one callback is pending, and `ticking` is
true exactly when one is. -/
def PerformanceOptimizer.Throttled (s : PerformanceOptimizer) : Prop :=
  s.pendingFrames ≤ 1 ∧ (s.ticking = true ↔ s.pendingFrames = 1)

end Script

namespace Script

/-! ### ThemeManager: lemmas -/

@[simp] theorem setTheme_storedTheme (m : ThemeManager) (t : String) :
    (m.setTheme t).storedTheme = some t := rfl

@[simp] theorem setTheme_currentTheme (m : ThemeManager) (t : String) :
    (m.setTheme t).currentTheme = t := rfl

@[simp] theorem setTheme_dataTheme (m : ThemeManager) (t : String) :
    (m.setTheme t).dataTheme = some t := rfl

@[simp] theorem construct_currentTheme (page : Page) (stored : Option String) :
    (ThemeManager.construct page stored).currentTheme = orDefault stored "light" := rfl

@[simp] theorem construct_storedTheme (page : Page) (stored : Option String) :
    (ThemeManager.construct page stored).storedTheme = some (orDefault stored "light") := rfl

@[simp] theorem construct_dataTheme (page : Page) (stored : Option String) :
    (ThemeManager.construct page stored).dataTheme = some (orDefault stored "light") := rfl

@[simp] theorem toggleTheme_currentTheme (m : ThemeManager) :
    m.toggleTheme.currentTheme = if m.currentTheme = "light" then "dark" else "light" := rfl

@[simp] theorem toggleTheme_storedTheme (m : ThemeManager) :
    m.toggleTheme.storedTheme
      = some (if m.currentTheme = "light" then "dark" else "light") := rfl

theorem orDefault_ne_empty (x : Option String) : orDefault x "light" ≠ "" := by
  unfold orDefault
  cases x with
  | none => decide
  | some s =>
    by_cases h : s = ""
    · simp [h]
    · simp [h]

theorem orDefault_enumerated_iff (x : Option String) :
    (orDefault x "light" = "light" ∨ orDefault x "light" = "dark") ↔ enumeratedEntry x := by
  unfold orDefault enumeratedEntry
  cases x with
  | none => simp
  | some s =>
    by_cases h : s = ""
    · simp [h]
    · simp [h]

end Script

namespace Script

/-! ### ThemeManager: theorems -/

theorem toggleTheme_enumerated (m : ThemeManager) :
    m.toggleTheme.currentTheme = "light" ∨ m.toggleTheme.currentTheme = "dark" := by
  by_cases h : m.currentTheme = "light"
  · right; simp [h]
  · left; simp [h]

theorem toggle_toggle_currentTheme (m : ThemeManager) :
    m.toggleTheme.toggleTheme.currentTheme
      = if m.currentTheme = "light" then "light" else "dark" := by
  by_cases h : m.currentTheme = "light"
  · simp [h]
  · simp [h]

theorem toggle_toggle_storedTheme (m : ThemeManager) :
    m.toggleTheme.toggleTheme.storedTheme
      = some (if m.currentTheme = "light" then "light" else "dark") := by
  by_cases h : m.currentTheme = "light"
  · simp [h]
  · simp [h]

theorem toggleTimes_succ (n : Nat) (m : ThemeManager) :
    ThemeManager.toggleTimes (n + 1) m = (ThemeManager.toggleTimes n m).toggleTheme := by
  induction n generalizing m with
  | zero => rfl
  | succ k ih =>
    show ThemeManager.toggleTimes (k + 1) m.toggleTheme = _
    rw [ih m.toggleTheme]
    rfl

theorem construct_synced (page : Page) (stored : Option String) :
    (ThemeManager.construct page stored).Synced :=
  ⟨rfl, orDefault_ne_empty stored⟩

theorem toggleTheme_synced (m : ThemeManager) : m.toggleTheme.Synced := by
  refine ⟨rfl, ?_⟩
  rcases toggleTheme_enumerated m with h | h <;> rw [h] <;> decide

theorem transitionTimeout_synced (m : ThemeManager) (h : m.Synced) :
    m.transitionTimeout.Synced := by
  unfold ThemeManager.transitionTimeout
  split
  · exact h
  · exact h

theorem act_synced (m : ThemeManager) (a : ThemeAction) (h : m.Synced) : (m.act a).Synced := by
  cases a with
  | toggle => exact toggleTheme_synced m
  | timeout => exact transitionTimeout_synced m h
  | reload page => exact construct_synced page m.storedTheme

theorem foldl_act_synced (actions : List ThemeAction) (m : ThemeManager) (h : m.Synced) :
    (actions.foldl ThemeManager.act m).Synced := by
  induction actions generalizing m with
  | nil => exact h
  | cons a rest ih => exact ih (m.act a) (act_synced m a h)

theorem session_synced (page : Page) (stored : Option String) (actions : List ThemeAction) :
    (ThemeManager.session page stored actions).Synced :=
  foldl_act_synced actions _ (construct_synced page stored)

theorem orDefault_some_of_ne_empty (v : String) (h : v ≠ "") : orDefault (some v) "light" = v := by
  simp [orDefault, h]

/-- C1, as stated, fails: constructed over the entry `'blue'` the persisted
value is `'blue'`, and after two calls of `toggleTheme` it is `'dark'`. -/
theorem c1_toggle_twice_counterexample :
    (ThemeManager.construct ⟨none, ""⟩ (some "blue")).storedTheme = some "blue" ∧
    (ThemeManager.construct ⟨none, ""⟩ (some "blue")).toggleTheme.toggleTheme.storedTheme
      = some "dark" ∧
    (ThemeManager.construct ⟨none, ""⟩ (some "blue")).toggleTheme.toggleTheme.storedTheme
      ≠ (ThemeManager.construct ⟨none, ""⟩ (some "blue")).storedTheme := by
  decide

/-- C1, amended: for a `ThemeManager` constructed over the `'theme'` entry,
calling `toggleTheme` twice leaves the persisted value equal to the value it
had before the two calls exactly when the entry was absent, empty, `'light'`
or `'dark'`. -/
theorem c1_toggle_twice_persisted (page : Page) (stored : Option String) :
    (ThemeManager.construct page stored).toggleTheme.toggleTheme.storedTheme
        = (ThemeManager.construct page stored).storedTheme
      ↔ enumeratedEntry stored := by
  rw [toggle_toggle_storedTheme, construct_storedTheme, construct_currentTheme,
    ← orDefault_enumerated_iff]
  by_cases h : orDefault stored "light" = "light"
  · simp [h]
  · simp only [h, if_false, Option.some.injEq, false_or]
    exact eq_comm

/-- C2, as stated, fails: constructed over the entry `'blue'` and toggled zero
times, the persisted value is `'blue'`, neither `'light'` nor `'dark'`. -/
theorem c2_persisted_enumerated_counterexample :
    (ThemeManager.toggleTimes 0 (ThemeManager.construct ⟨none, ""⟩ (some "blue"))).storedTheme
      = some "blue" ∧
    ¬ ((ThemeManager.toggleTimes 0
          (ThemeManager.construct ⟨none, ""⟩ (some "blue"))).storedTheme = some "light" ∨
       (ThemeManager.toggleTimes 0
          (ThemeManager.construct ⟨none, ""⟩ (some "blue"))).storedTheme = some "dark") := by
  decide

/-- C2, amended: after constructing a `ThemeManager` over any content of the
`'theme'` entry and calling `toggleTheme` `n` times, the persisted value is
`'light'` or `'dark'` exactly when at least one call was made or the entry was
absent, empty, `'light'` or `'dark'`. -/
theorem c2_persisted_enumerated (page : Page) (stored : Option String) (n : Nat) :
    ((ThemeManager.toggleTimes n (ThemeManager.construct page stored)).storedTheme = some "light" ∨
     (ThemeManager.toggleTimes n (ThemeManager.construct page stored)).storedTheme = some "dark")
      ↔ (0 < n ∨ enumeratedEntry stored) := by
  cases n with
  | zero =>
    show ((ThemeManager.construct page stored).storedTheme = some "light" ∨
      (ThemeManager.construct page stored).storedTheme = some "dark") ↔ _
    rw [construct_storedTheme, ← orDefault_enumerated_iff]
    simp
  | succ k =>
    rw [toggleTimes_succ]
    have h := toggleTheme_enumerated (ThemeManager.toggleTimes k (ThemeManager.construct page stored))
    have hs : (ThemeManager.toggleTimes k (ThemeManager.construct page stored)).toggleTheme.storedTheme
        = some (ThemeManager.toggleTimes k
            (ThemeManager.construct page stored)).toggleTheme.currentTheme := rfl
    rw [hs]
    constructor
    · intro _; exact Or.inl (Nat.succ_pos k)
    · intro _
      rcases h with h | h
      · exact Or.inl (by rw [h])
      · exact Or.inr (by rw [h])

/-- C3: in every session (a first page load over any content of the `'theme'`
entry, then any sequence of toggles, timer callbacks and reloads) the value
`v` that `setTheme` persisted last is the current theme, and constructing a
new `ThemeManager` over that storage on any freshly loaded page yields
`currentTheme = v`, sets the root `data-theme` attribute to `v` and leaves the
persisted value equal to `v`. -/
theorem c3_reload_reapplies (page : Page) (stored : Option String)
    (actions : List ThemeAction) (reloaded : Page) :
    (ThemeManager.session page stored actions).storedTheme
        = some (ThemeManager.session page stored actions).currentTheme ∧
    (ThemeManager.construct reloaded
        (ThemeManager.session page stored actions).storedTheme).currentTheme
      = (ThemeManager.session page stored actions).currentTheme ∧
    (ThemeManager.construct reloaded
        (ThemeManager.session page stored actions).storedTheme).dataTheme
      = some (ThemeManager.session page stored actions).currentTheme ∧
    (ThemeManager.construct reloaded
        (ThemeManager.session page stored actions).storedTheme).storedTheme
      = some (ThemeManager.session page stored actions).currentTheme := by
  obtain ⟨hs, hne⟩ := session_synced page stored actions
  refine ⟨hs, ?_, ?_, ?_⟩
  · rw [hs, construct_currentTheme, orDefault_some_of_ne_empty _ hne]
  · rw [hs, construct_dataTheme, orDefault_some_of_ne_empty _ hne]
  · rw [hs, construct_storedTheme, orDefault_some_of_ne_empty _ hne]

end Script

namespace Script

/-! ### Class lists: lemmas -/

theorem classContains_iff (cl : List String) (c : String) :
    classContains cl c = true ↔ c ∈ cl := by
  simp [classContains]

theorem classContains_classRemove (cl : List String) (c : String) :
    classContains (classRemove cl c) c = false := by
  simp [classContains, classRemove]

theorem classContains_classAdd (cl : List String) (c : String) :
    classContains (classAdd cl c) c = true := by
  rw [classContains_iff]
  unfold classAdd
  by_cases h : c ∈ cl
  · simp [h]
  · simp [h]

theorem classContains_classToggle (cl : List String) (c : String) :
    classContains (classToggle cl c) c = !classContains cl c := by
  unfold classToggle
  by_cases h : c ∈ cl
  · have hc : cl.contains c = true := by simpa using h
    rw [if_pos hc, classContains_classRemove]
    simp [classContains, h]
  · have hc : ¬ cl.contains c = true := by simpa using h
    rw [if_neg hc, classContains_classAdd]
    simp [classContains, h]

/-! ### MobileNav: theorems -/

theorem closeMenu_menuActive (s : MobileNav) : s.closeMenu.menuActive = false :=
  classContains_classRemove s.navMenu "active"

theorem closeMenu_burgerActive (s : MobileNav) : s.closeMenu.burgerActive = false :=
  classContains_classRemove s.burger "active"

theorem toggleMenu_menuActive (s : MobileNav) : s.toggleMenu.menuActive = !s.menuActive :=
  classContains_classToggle s.navMenu "active"

theorem toggleMenu_burgerActive (s : MobileNav) : s.toggleMenu.burgerActive = !s.burgerActive :=
  classContains_classToggle s.burger "active"

theorem clickBurger_eq (s : MobileNav) (inNavMenu : Bool) :
    s.clickBurger inNavMenu = s.toggleMenu := by
  simp [MobileNav.clickBurger, MobileNav.onDocumentClick, MobileNav.onBurgerClick]

theorem clickLink_eq (s : MobileNav) (inBurger inNavMenu : Bool) :
    s.clickLink inBurger inNavMenu = s.closeMenu ∨
    s.clickLink inBurger inNavMenu = s.closeMenu.closeMenu := by
  unfold MobileNav.clickLink MobileNav.onDocumentClick MobileNav.onLinkClick
  by_cases h : (!inBurger && !inNavMenu) = true
  · right; rw [if_pos h]
  · left; rw [if_neg h]

/-- C4: from a state in which the menu is closed (neither the nav menu nor the
burger has `'active'`), a click on the burger (burger handler, then the
document handler with a target inside the burger) opens it, and a following
click on a navigation link (link handler, then the document handler, wherever
the link lies) ends with neither element having `'active'`; and `closeMenu`
from any state leaves both without `'active'`. -/
theorem c4_link_click_closes_menu (s : MobileNav) (inNavMenu1 inBurger2 inNavMenu2 : Bool)
    (hMenu : s.menuActive = false) (hBurger : s.burgerActive = false) :
    (s.clickBurger inNavMenu1).menuActive = true ∧
    (s.clickBurger inNavMenu1).burgerActive = true ∧
    ((s.clickBurger inNavMenu1).clickLink inBurger2 inNavMenu2).menuActive = false ∧
    ((s.clickBurger inNavMenu1).clickLink inBurger2 inNavMenu2).burgerActive = false ∧
    (∀ t : MobileNav, t.closeMenu.menuActive = false ∧ t.closeMenu.burgerActive = false) := by
  refine ⟨?_, ?_, ?_, ?_, fun t => ⟨closeMenu_menuActive t, closeMenu_burgerActive t⟩⟩
  · rw [clickBurger_eq, toggleMenu_menuActive, hMenu]; rfl
  · rw [clickBurger_eq, toggleMenu_burgerActive, hBurger]; rfl
  · rcases clickLink_eq (s.clickBurger inNavMenu1) inBurger2 inNavMenu2 with h | h <;>
      rw [h] <;> exact closeMenu_menuActive _
  · rcases clickLink_eq (s.clickBurger inNavMenu1) inBurger2 inNavMenu2 with h | h <;>
      rw [h] <;> exact closeMenu_burgerActive _

/-- Witness for C4: a closed menu with other classes on both elements; the
link lies inside the nav menu. -/
theorem c4_link_click_closes_menu_witness :
    (MobileNav.mk ["nav-menu"] ["nav-burger"]).menuActive = false ∧
    (MobileNav.mk ["nav-menu"] ["nav-burger"]).burgerActive = false ∧
    ((MobileNav.mk ["nav-menu"] ["nav-burger"]).clickBurger false).menuActive = true ∧
    (((MobileNav.mk ["nav-menu"] ["nav-burger"]).clickBurger false).clickLink false true).menuActive
      = false :=
  ⟨by decide, by decide,
    (c4_link_click_closes_menu ⟨["nav-menu"], ["nav-burger"]⟩ false false true
      (by decide) (by decide)).1,
    (c4_link_click_closes_menu ⟨["nav-menu"], ["nav-burger"]⟩ false false true
      (by decide) (by decide)).2.2.1⟩

/-! ### HeaderEffect: theorems -/

theorem handleScroll_classList (h : HeaderEffect) (y : ℚ) :
    (h.handleScroll y).classList
      = if y > 50 then classAdd h.classList "scrolled" else classRemove h.classList "scrolled" := by
  unfold HeaderEffect.handleScroll
  by_cases hy : y > 50
  · simp only [hy, if_true]
    split <;> rfl
  · simp only [hy, if_false]
    split <;> rfl

/-- C5: for every `HeaderEffect` state and every scroll offset `y`, after
`handleScroll` ran with `window.scrollY = y` the header has the `'scrolled'`
class if and only if `y > 50`, whatever its class list was before. -/
theorem c5_scrolled_iff (h : HeaderEffect) (y : ℚ) :
    (h.handleScroll y).scrolled = true ↔ y > 50 := by
  unfold HeaderEffect.scrolled
  rw [handleScroll_classList]
  by_cases hy : y > 50
  · simp only [hy, if_true, iff_true]
    exact classContains_classAdd _ _
  · simp only [hy, if_false, iff_false]
    rw [classContains_classRemove]
    decide

end Script

namespace Script

/-! ### EventCountdown: theorems -/

theorem floorDiv_eq_ediv (a b : Int) (hb : 0 < b) : floorDiv a b = a / b :=
  Int.fdiv_eq_ediv a hb.le

/-- `floorDiv` is the floor of the exact quotient. -/
theorem floorDiv_eq_floor (a b : Int) (hb : 0 < b) :
    floorDiv a b = Int.floor ((a : ℚ) / (b : ℚ)) := by
  rw [floorDiv_eq_ediv a b hb]
  obtain ⟨n, rfl⟩ := Int.eq_ofNat_of_zero_le hb.le
  exact (Rat.floor_intCast_div_natCast a n).symm

theorem jsMod_eq_emod (a b : Int) (ha : 0 ≤ a) (hb : 0 < b) : jsMod a b = a % b :=
  Int.tmod_eq_emod ha hb.le

theorem remaining_eq (d : Int) (hd : 0 < d) :
    remaining d =
      { days := d / 86400000
        hours := d % 86400000 / 3600000
        minutes := d % 3600000 / 60000
        seconds := d % 60000 / 1000 } := by
  have e1 : (1000 * 60 * 60 * 24 : Int) = 86400000 := by norm_num
  have e2 : (1000 * 60 * 60 : Int) = 3600000 := by norm_num
  have e3 : (1000 * 60 : Int) = 60000 := by norm_num
  unfold remaining
  rw [e1, e2, e3]
  rw [jsMod_eq_emod d 86400000 hd.le (by norm_num), jsMod_eq_emod d 3600000 hd.le (by norm_num),
    jsMod_eq_emod d 60000 hd.le (by norm_num)]
  rw [floorDiv_eq_ediv _ _ (by norm_num), floorDiv_eq_ediv _ _ (by norm_num),
    floorDiv_eq_ediv _ _ (by norm_num), floorDiv_eq_ediv _ _ (by norm_num)]

theorem remaining_totalSeconds (d : Int) (hd : 0 < d) :
    (remaining d).totalSeconds = d / 1000 := by
  rw [remaining_eq d hd]
  unfold Remaining.totalSeconds
  simp only
  omega

theorem remaining_bounds (d : Int) (hd : 0 < d) :
    0 ≤ (remaining d).days ∧
    0 ≤ (remaining d).hours ∧ (remaining d).hours < 24 ∧
    0 ≤ (remaining d).minutes ∧ (remaining d).minutes < 60 ∧
    0 ≤ (remaining d).seconds ∧ (remaining d).seconds < 60 := by
  rw [remaining_eq d hd]
  simp only
  omega

theorem lexLt_of_totalSeconds_lt (a b : Remaining)
    (ha : 0 ≤ a.hours ∧ a.hours < 24 ∧ 0 ≤ a.minutes ∧ a.minutes < 60 ∧
      0 ≤ a.seconds ∧ a.seconds < 60)
    (hb : 0 ≤ b.hours ∧ b.hours < 24 ∧ 0 ≤ b.minutes ∧ b.minutes < 60 ∧
      0 ≤ b.seconds ∧ b.seconds < 60)
    (h : a.totalSeconds < b.totalSeconds) : a.lexLt b := by
  unfold Remaining.totalSeconds at h
  unfold Remaining.lexLt
  omega

theorem updateCountdown_before (c : EventCountdown) (now : Int) (content : String)
    (h : now < c.eventDate) :
    c.updateCountdown now (some content) = some (remaining (c.eventDate - now)).render := by
  unfold EventCountdown.updateCountdown
  have hd : c.eventDate - now > 0 := by omega
  simp only [hd, if_true]

/-- C6: for two instants `t1`, `t2`, both before the event instant, with `t2`
at least 1000 ms after `t1` (so `t1 < t2`), `updateCountdown` renders at each of them the value
`remaining (eventDate - t)`, and the value rendered at `t2` is strictly
smaller than the one rendered at `t1`, both in total seconds
(`days*86400 + hours*3600 + minutes*60 + seconds`) and lexicographically. -/
theorem c6_countdown_strictly_decreases (c : EventCountdown) (t1 t2 : Int) (content : String)
    (h1 : t1 < c.eventDate) (h2 : t2 < c.eventDate) (hgap : 1000 ≤ t2 - t1) :
    c.updateCountdown t1 (some content) = some (remaining (c.eventDate - t1)).render ∧
    c.updateCountdown t2 (some content) = some (remaining (c.eventDate - t2)).render ∧
    (remaining (c.eventDate - t2)).totalSeconds < (remaining (c.eventDate - t1)).totalSeconds ∧
    (remaining (c.eventDate - t2)).lexLt (remaining (c.eventDate - t1)) := by
  have hd1 : 0 < c.eventDate - t1 := by omega
  have hd2 : 0 < c.eventDate - t2 := by omega
  have hsec : (remaining (c.eventDate - t2)).totalSeconds
      < (remaining (c.eventDate - t1)).totalSeconds := by
    rw [remaining_totalSeconds _ hd1, remaining_totalSeconds _ hd2]
    omega
  refine ⟨updateCountdown_before c t1 content h1, updateCountdown_before c t2 content h2, hsec, ?_⟩
  exact lexLt_of_totalSeconds_lt _ _ (remaining_bounds _ hd2).2 (remaining_bounds _ hd1).2 hsec

/-- Witness for C6: one second before the event and two seconds before it,
for the event date the constructor sets. -/
theorem c6_countdown_strictly_decreases_witness :
    (1758952798000 : Int) < EventCountdown.construct.eventDate ∧
    (1758952799000 : Int) < EventCountdown.construct.eventDate ∧
    (remaining (EventCountdown.construct.eventDate - 1758952799000)).totalSeconds
      < (remaining (EventCountdown.construct.eventDate - 1758952798000)).totalSeconds :=
  ⟨by decide, by decide,
    (c6_countdown_strictly_decreases EventCountdown.construct 1758952798000 1758952799000
      "" (by decide) (by decide) (by decide)).2.2.1⟩

/-- C7: at or after the event instant (`eventDate - now <= 0`) and for every
prior content of the countdown element (also when the element is absent),
`updateCountdown` leaves the element's content unchanged. -/
theorem c7_no_update_after_event (c : EventCountdown) (now : Int) (countdownEl : Option String)
    (h : c.eventDate - now ≤ 0) :
    c.updateCountdown now countdownEl = countdownEl := by
  unfold EventCountdown.updateCountdown
  have hd : ¬ (c.eventDate - now > 0) := by omega
  simp only [hd, if_false]

/-- Witness for C7: one second after the event, with a content left by an
earlier tick. -/
theorem c7_no_update_after_event_witness :
    EventCountdown.construct.eventDate - 1758952801000 ≤ 0 ∧
    EventCountdown.construct.updateCountdown 1758952801000 (some "0d 0h 0m 1s")
      = some "0d 0h 0m 1s" :=
  ⟨by decide,
    c7_no_update_after_event EventCountdown.construct 1758952801000 (some "0d 0h 0m 1s")
      (by decide)⟩

/-- C9: for every positive distance in milliseconds the four numbers
`updateCountdown` computes satisfy `0 <= hours < 24`, `0 <= minutes < 60`,
`0 <= seconds < 60`, `days >= 0`, and
`days*86400 + hours*3600 + minutes*60 + seconds = floor(distance / 1000)`. -/
theorem c9_remaining_decomposition (distance : Int) (h : 0 < distance) :
    0 ≤ (remaining distance).hours ∧ (remaining distance).hours < 24 ∧
    0 ≤ (remaining distance).minutes ∧ (remaining distance).minutes < 60 ∧
    0 ≤ (remaining distance).seconds ∧ (remaining distance).seconds < 60 ∧
    (remaining distance).days ≥ 0 ∧
    (remaining distance).days * 86400 + (remaining distance).hours * 3600
        + (remaining distance).minutes * 60 + (remaining distance).seconds
      = Int.floor ((distance : ℚ) / 1000) := by
  obtain ⟨hd, hh0, hh1, hm0, hm1, hs0, hs1⟩ := remaining_bounds distance h
  refine ⟨hh0, hh1, hm0, hm1, hs0, hs1, hd, ?_⟩
  have ht := remaining_totalSeconds distance h
  unfold Remaining.totalSeconds at ht
  rw [ht]
  have hf := Rat.floor_intCast_div_natCast distance 1000
  simp only [Nat.cast_ofNat] at hf
  exact hf.symm

/-- Witness for C9: one day, one hour, one minute, one second and one
millisecond. -/
theorem c9_remaining_decomposition_witness :
    (0 : Int) < 90061001 ∧ remaining 90061001 = ⟨1, 1, 1, 1⟩ ∧
    (remaining 90061001).days * 86400 + (remaining 90061001).hours * 3600
        + (remaining 90061001).minutes * 60 + (remaining 90061001).seconds
      = Int.floor (((90061001 : Int) : ℚ) / 1000) :=
  ⟨by decide, by decide, (c9_remaining_decomposition 90061001 (by decide)).2.2.2.2.2.2.2⟩

end Script

namespace Script

/-! ### AnimationObserver: theorems -/

theorem observe_fields (s : AnimationObserver) (el : Nat) :
    (s.observe el).animateIn = s.animateIn ∧ (s.observe el).addCalls = s.addCalls := by
  unfold AnimationObserver.observe
  split <;> exact ⟨rfl, rfl⟩

theorem foldl_observe_fields (cards : List Nat) (s : AnimationObserver) :
    (cards.foldl AnimationObserver.observe s).animateIn = s.animateIn ∧
    (cards.foldl AnimationObserver.observe s).addCalls = s.addCalls := by
  induction cards generalizing s with
  | nil => exact ⟨rfl, rfl⟩
  | cons c rest ih =>
    obtain ⟨h1, h2⟩ := ih (s.observe c)
    obtain ⟨h3, h4⟩ := observe_fields s c
    exact ⟨h1.trans h3, h2.trans h4⟩

theorem init_fields (supported : Bool) (cards : List Nat) :
    (AnimationObserver.init supported cards).animateIn = [] ∧
    (AnimationObserver.init supported cards).addCalls = [] := by
  unfold AnimationObserver.init
  cases supported
  · exact ⟨rfl, rfl⟩
  · exact foldl_observe_fields cards _

theorem init_settled (supported : Bool) (cards : List Nat) :
    (AnimationObserver.init supported cards).Settled := by
  obtain ⟨h1, h2⟩ := init_fields supported cards
  unfold AnimationObserver.Settled
  rw [h1, h2]
  simp

theorem init_once (supported : Bool) (cards : List Nat) :
    (AnimationObserver.init supported cards).Once := by
  obtain ⟨_, h2⟩ := init_fields supported cards
  unfold AnimationObserver.Once
  rw [h2]
  simp

theorem onEntry_settled (s : AnimationObserver) (x : Entry) (h : s.Settled) :
    (s.onEntry x).Settled := by
  obtain ⟨hn, hd, hc⟩ := h
  unfold AnimationObserver.onEntry
  cases hx : x.isIntersecting
  · exact ⟨hn, hd, hc⟩
  · simp only [if_true]
    unfold AnimationObserver.Settled AnimationObserver.unobserve AnimationObserver.addAnimateIn
    by_cases hm : x.target ∈ s.animateIn
    · have hcall : x.target ∈ s.addCalls := (hc _).1 hm
      have hcont : s.animateIn.contains x.target = true := by simpa using hm
      simp only [if_pos hcont]
      refine ⟨hn, ?_, ?_⟩
      · intro e he hmem
        exact hd e he (List.mem_filter.1 hmem).1
      · intro e
        rw [List.mem_append, hc e]
        constructor
        · intro h; exact Or.inl h
        · rintro (h | h)
          · exact h
          · rw [List.mem_singleton] at h; rw [h]; exact hcall
    · have hcont : ¬ s.animateIn.contains x.target = true := by simpa using hm
      simp only [if_neg hcont]
      refine ⟨?_, ?_, ?_⟩
      · rw [List.nodup_append]
        refine ⟨hn, List.nodup_singleton _, ?_⟩
        intro a ha hb
        rw [List.mem_singleton] at hb
        exact hm (hb ▸ ha)
      · intro e he hmem
        rw [List.mem_filter] at hmem
        rcases List.mem_append.1 he with h | h
        · exact hd e h hmem.1
        · rw [List.mem_singleton] at h
          simp [h] at hmem
      · intro e
        rw [List.mem_append, List.mem_append, hc e]

theorem callback_settled (b : List Entry) (s : AnimationObserver) (h : s.Settled) :
    (s.callback b).Settled := by
  unfold AnimationObserver.callback
  induction b generalizing s with
  | nil => exact h
  | cons x rest ih => exact ih (s.onEntry x) (onEntry_settled s x h)

theorem run_settled (batches : List (List Entry)) (s : AnimationObserver) (h : s.Settled) :
    (s.run batches).Settled := by
  unfold AnimationObserver.run
  induction batches generalizing s with
  | nil => exact h
  | cons b rest ih => exact ih (s.callback b) (callback_settled b s h)

theorem callback_once (b : List Entry) (s : AnimationObserver) (h : s.Once)
    (hobs : ∀ x ∈ b, x.target ∈ s.observed) (hnd : (b.map Entry.target).Nodup) :
    (s.callback b).Once := by
  unfold AnimationObserver.callback
  induction b generalizing s with
  | nil => exact h
  | cons x rest ih =>
    rw [List.map_cons, List.nodup_cons] at hnd
    obtain ⟨hx, hrest⟩ := hnd
    have hxo : x.target ∈ s.observed := hobs x (List.mem_cons_self _ _)
    rw [List.foldl_cons]
    cases hi : x.isIntersecting
    · have hs : s.onEntry x = s := by simp [AnimationObserver.onEntry, hi]
      rw [hs]
      exact ih s h (fun y hy => hobs y (List.mem_cons_of_mem _ hy)) hrest
    · obtain ⟨hn, hd⟩ := h
      have hfresh : x.target ∉ s.addCalls := fun hmem => hd _ hmem hxo
      apply ih _ _ _ hrest
      · unfold AnimationObserver.Once AnimationObserver.onEntry AnimationObserver.unobserve
          AnimationObserver.addAnimateIn
        simp only [hi, if_true]
        refine ⟨?_, ?_⟩
        · rw [List.nodup_append]
          refine ⟨hn, List.nodup_singleton _, ?_⟩
          intro a ha hb
          rw [List.mem_singleton] at hb
          exact hfresh (hb ▸ ha)
        · intro e he hmem
          rw [List.mem_filter] at hmem
          rcases List.mem_append.1 he with h | h
          · exact hd e h hmem.1
          · rw [List.mem_singleton] at h
            simp [h] at hmem
      · intro y hy
        have hyo : y.target ∈ s.observed := hobs y (List.mem_cons_of_mem _ hy)
        have hne : y.target ≠ x.target := by
          intro heq
          exact hx (heq ▸ List.mem_map_of_mem Entry.target hy)
        unfold AnimationObserver.onEntry AnimationObserver.unobserve AnimationObserver.addAnimateIn
        simp only [hi, if_true]
        rw [List.mem_filter]
        exact ⟨hyo, by simpa using hne⟩

theorem run_once (batches : List (List Entry)) (s : AnimationObserver) (h : s.Once)
    (hvalid : s.validRun batches = true) (hone : onePerTarget batches = true) :
    (s.run batches).Once := by
  unfold AnimationObserver.run
  induction batches generalizing s with
  | nil => exact h
  | cons b rest ih =>
    unfold AnimationObserver.validRun at hvalid
    rw [Bool.and_eq_true] at hvalid
    unfold onePerTarget at hone
    rw [List.all_cons, Bool.and_eq_true] at hone
    have hobs : ∀ x ∈ b, x.target ∈ s.observed := by
      have := hvalid.1
      unfold AnimationObserver.deliverable at this
      rw [List.all_eq_true] at this
      intro x hx
      simpa using this x hx
    have hnd : (b.map Entry.target).Nodup := by simpa using hone.1
    exact ih (s.callback b) (callback_once b s h hobs hnd) hvalid.2 hone.2

theorem observe_observed (s : AnimationObserver) (el e : Nat) :
    e ∈ (s.observe el).observed ↔ e ∈ s.observed ∨ e = el := by
  unfold AnimationObserver.observe
  by_cases h : el ∈ s.observed
  · have hc : s.observed.contains el = true := by simpa using h
    rw [if_pos hc]
    constructor
    · intro he; exact Or.inl he
    · rintro (he | he)
      · exact he
      · rw [he]; exact h
  · have hc : ¬ s.observed.contains el = true := by simpa using h
    rw [if_neg hc]
    simp

theorem foldl_observe_observed (cards : List Nat) (s : AnimationObserver) (e : Nat) :
    e ∈ (cards.foldl AnimationObserver.observe s).observed ↔ e ∈ s.observed ∨ e ∈ cards := by
  induction cards generalizing s with
  | nil => simp
  | cons c rest ih =>
    rw [List.foldl_cons, ih (s.observe c), observe_observed, List.mem_cons]
    tauto

theorem init_observed (supported : Bool) (cards : List Nat) (e : Nat) :
    e ∈ (AnimationObserver.init supported cards).observed ↔ supported = true ∧ e ∈ cards := by
  unfold AnimationObserver.init
  cases supported
  · simp
  · simp only [if_true, true_and]
    rw [foldl_observe_observed]
    simp

theorem onEntry_animateIn (s : AnimationObserver) (x : Entry) (e : Nat) :
    e ∈ (s.onEntry x).animateIn ↔ e ∈ s.animateIn ∨ x.triggers e := by
  unfold AnimationObserver.onEntry Entry.triggers
  cases hx : x.isIntersecting
  · simp
  · simp only [if_true, true_and]
    unfold AnimationObserver.unobserve AnimationObserver.addAnimateIn
    by_cases hm : x.target ∈ s.animateIn
    · have hcont : s.animateIn.contains x.target = true := by simpa using hm
      simp only [if_pos hcont]
      constructor
      · intro h; exact Or.inl h
      · rintro (h | h)
        · exact h
        · rw [← h]; exact hm
    · have hcont : ¬ s.animateIn.contains x.target = true := by simpa using hm
      simp only [if_neg hcont]
      rw [List.mem_append, List.mem_singleton]
      constructor
      · rintro (h | h)
        · exact Or.inl h
        · exact Or.inr h.symm
      · rintro (h | h)
        · exact Or.inl h
        · exact Or.inr h.symm

theorem onEntry_observed (s : AnimationObserver) (x : Entry) (e : Nat) :
    e ∈ (s.onEntry x).observed ↔ e ∈ s.observed ∧ ¬ x.triggers e := by
  unfold AnimationObserver.onEntry Entry.triggers
  cases hx : x.isIntersecting
  · simp
  · simp only [if_true, true_and]
    unfold AnimationObserver.unobserve AnimationObserver.addAnimateIn
    simp only [List.mem_filter, bne_iff_ne, ne_eq]
    constructor
    · rintro ⟨h1, h2⟩; exact ⟨h1, fun h => h2 h.symm⟩
    · rintro ⟨h1, h2⟩; exact ⟨h1, fun h => h2 h.symm⟩

theorem callback_animateIn (b : List Entry) (s : AnimationObserver) (e : Nat) :
    e ∈ (s.callback b).animateIn ↔ e ∈ s.animateIn ∨ ∃ x ∈ b, x.triggers e := by
  unfold AnimationObserver.callback
  induction b generalizing s with
  | nil => simp
  | cons y rest ih =>
    rw [List.foldl_cons, ih (s.onEntry y), onEntry_animateIn]
    simp only [List.mem_cons, exists_eq_or_imp]
    exact or_assoc

theorem callback_observed (b : List Entry) (s : AnimationObserver) (e : Nat) :
    e ∈ (s.callback b).observed ↔ e ∈ s.observed ∧ ¬ ∃ x ∈ b, x.triggers e := by
  unfold AnimationObserver.callback
  induction b generalizing s with
  | nil => simp
  | cons y rest ih =>
    rw [List.foldl_cons, ih (s.onEntry y), onEntry_observed]
    simp only [List.mem_cons, exists_eq_or_imp]
    rw [not_or, and_assoc]

theorem run_animateIn (batches : List (List Entry)) (s : AnimationObserver) (e : Nat) :
    e ∈ (s.run batches).animateIn ↔
      e ∈ s.animateIn ∨ ∃ b ∈ batches, ∃ x ∈ b, x.triggers e := by
  unfold AnimationObserver.run
  induction batches generalizing s with
  | nil => simp
  | cons b rest ih =>
    rw [List.foldl_cons, ih (s.callback b), callback_animateIn]
    simp only [List.mem_cons, exists_eq_or_imp]
    exact or_assoc

theorem run_observed (batches : List (List Entry)) (s : AnimationObserver) (e : Nat) :
    e ∈ (s.run batches).observed ↔
      e ∈ s.observed ∧ ¬ ∃ b ∈ batches, ∃ x ∈ b, x.triggers e := by
  unfold AnimationObserver.run
  induction batches generalizing s with
  | nil => simp
  | cons b rest ih =>
    rw [List.foldl_cons, ih (s.callback b), callback_observed]
    simp only [List.mem_cons, exists_eq_or_imp]
    rw [not_or, and_assoc]

/-- C8, as stated, fails: with one card observed, the batch holding two
intersecting entries for that card is a batch of entries for currently
observed elements, and the callback calls `classList.add('animate-in')` on
the card twice. -/
theorem c8_repeated_target_counterexample :
    (AnimationObserver.init true [1]).validRun [[⟨1, true⟩, ⟨1, true⟩]] = true ∧
    ((AnimationObserver.init true [1]).run [[⟨1, true⟩, ⟨1, true⟩]]).addCalls = [1, 1] ∧
    ¬ (∀ e, ((AnimationObserver.init true [1]).run
        [[⟨1, true⟩, ⟨1, true⟩]]).addCalls.count e ≤ 1) := by
  refine ⟨by decide, by decide, ?_⟩
  intro h
  exact absurd (h 1) (by decide)

/-- C8, amended: from the state `init` leaves (the cards observed, none
carrying `'animate-in'`) and for every sequence of batches, each made of
entries for elements observed when it is delivered and holding at most one
entry per element, in the state reached: `classList.add('animate-in')` was
called at most once on each element; the elements carrying `'animate-in'`
are exactly those some entry reported as intersecting, and exactly those the
call was made on once; the observed elements are exactly the cards not
carrying the class, so an element carrying it is no longer observed; and no
batch the browser can deliver afterwards holds an entry for such an
element. -/
theorem c8_animate_in_at_most_once (supported : Bool) (cards : List Nat)
    (batches : List (List Entry))
    (hvalid : (AnimationObserver.init supported cards).validRun batches = true)
    (hone : onePerTarget batches = true) :
    (∀ e, ((AnimationObserver.init supported cards).run batches).addCalls.count e ≤ 1) ∧
    (∀ e, e ∈ ((AnimationObserver.init supported cards).run batches).animateIn ↔
      ∃ b ∈ batches, ∃ x ∈ b, x.isIntersecting = true ∧ x.target = e) ∧
    (∀ e, e ∈ ((AnimationObserver.init supported cards).run batches).animateIn ↔
      ((AnimationObserver.init supported cards).run batches).addCalls.count e = 1) ∧
    (∀ e, e ∈ ((AnimationObserver.init supported cards).run batches).observed ↔
      (supported = true ∧ e ∈ cards) ∧
        e ∉ ((AnimationObserver.init supported cards).run batches).animateIn) ∧
    (∀ later : List Entry,
      ((AnimationObserver.init supported cards).run batches).deliverable later = true →
      ∀ x ∈ later,
        x.target ∉ ((AnimationObserver.init supported cards).run batches).animateIn) := by
  obtain ⟨_, hd, hc⟩ := run_settled batches _ (init_settled supported cards)
  obtain ⟨hnd, _⟩ := run_once batches _ (init_once supported cards) hvalid hone
  have hanim : ∀ e, e ∈ ((AnimationObserver.init supported cards).run batches).animateIn ↔
      ∃ b ∈ batches, ∃ x ∈ b, x.triggers e := by
    intro e
    rw [run_animateIn, (init_fields supported cards).1]
    simp
  refine ⟨fun e => List.nodup_iff_count_le_one.1 hnd e, hanim, ?_, ?_, ?_⟩
  · intro e
    rw [hc e]
    constructor
    · intro h; exact List.count_eq_one_of_mem hnd h
    · intro h; exact List.count_pos_iff.1 (by omega)
  · intro e
    rw [run_observed, init_observed, hanim]
  · intro later hdel x hx hmem
    unfold AnimationObserver.deliverable at hdel
    rw [List.all_eq_true] at hdel
    exact hd _ hmem (by simpa using hdel x hx)

/-- Witness for C8: three cards; the first batch reports card 1 entering and
card 2 not, the second reports card 2 entering; card 3 is still observed. -/
theorem c8_animate_in_at_most_once_witness :
    (AnimationObserver.init true [1, 2, 3]).validRun
        [[⟨1, true⟩, ⟨2, false⟩], [⟨2, true⟩]] = true ∧
    onePerTarget [[⟨1, true⟩, ⟨2, false⟩], [⟨2, true⟩]] = true ∧
    ((AnimationObserver.init true [1, 2, 3]).run
        [[⟨1, true⟩, ⟨2, false⟩], [⟨2, true⟩]]).animateIn = [1, 2] ∧
    ((AnimationObserver.init true [1, 2, 3]).run
        [[⟨1, true⟩, ⟨2, false⟩], [⟨2, true⟩]]).observed = [3] ∧
    (∀ e, ((AnimationObserver.init true [1, 2, 3]).run
        [[⟨1, true⟩, ⟨2, false⟩], [⟨2, true⟩]]).addCalls.count e ≤ 1) :=
  ⟨by decide, by decide, by decide, by decide,
    (c8_animate_in_at_most_once true [1, 2, 3] [[⟨1, true⟩, ⟨2, false⟩], [⟨2, true⟩]]
      (by decide) (by decide)).1⟩

end Script

namespace Script

/-! ### PerformanceOptimizer: theorems -/

theorem init_throttled (prefersReducedMotion : Bool) (duration : Option String) :
    (PerformanceOptimizer.init prefersReducedMotion duration).Throttled := by
  unfold PerformanceOptimizer.Throttled PerformanceOptimizer.init
  simp

theorem optimizedScrollHandler_throttled (s : PerformanceOptimizer) (h : s.Throttled) :
    s.optimizedScrollHandler.Throttled := by
  obtain ⟨hle, hiff⟩ := h
  unfold PerformanceOptimizer.optimizedScrollHandler
  cases ht : s.ticking
  · have h0 : s.pendingFrames = 0 := by
      have : ¬ s.pendingFrames = 1 := fun h1 => by
        have := hiff.2 h1
        rw [ht] at this
        exact Bool.false_ne_true this
      omega
    simp [PerformanceOptimizer.Throttled, h0]
  · simp only [Bool.not_true, Bool.false_eq_true, if_false]
    exact ⟨hle, hiff⟩

theorem frame_throttled (s : PerformanceOptimizer) (h : s.Throttled) : s.frame.Throttled := by
  obtain ⟨hle, hiff⟩ := h
  unfold PerformanceOptimizer.frame
  by_cases h0 : s.pendingFrames = 0
  · rw [if_pos h0]; exact ⟨hle, hiff⟩
  · rw [if_neg h0]
    have h1 : s.pendingFrames = 1 := by omega
    simp [PerformanceOptimizer.Throttled, h1]

theorem step_throttled (s : PerformanceOptimizer) (e : ThrottleEvent) (h : s.Throttled) :
    (s.step e).Throttled := by
  cases e with
  | scroll => exact optimizedScrollHandler_throttled s h
  | frame => exact frame_throttled s h

theorem run_throttled (events : List ThrottleEvent) (s : PerformanceOptimizer)
    (h : s.Throttled) : (s.run events).Throttled := by
  unfold PerformanceOptimizer.run
  induction events generalizing s with
  | nil => exact h
  | cons e rest ih => exact ih (s.step e) (step_throttled s e h)

theorem frame_idle (s : PerformanceOptimizer) (h : s.Throttled) :
    s.frame.pendingFrames = 0 ∧ s.frame.ticking = false := by
  obtain ⟨hle, hiff⟩ := h
  unfold PerformanceOptimizer.frame
  by_cases h0 : s.pendingFrames = 0
  · rw [if_pos h0]
    refine ⟨h0, ?_⟩
    cases ht : s.ticking
    · rfl
    · have := hiff.1 ht; omega
  · rw [if_neg h0]
    have h1 : s.pendingFrames = 1 := by omega
    simp [h1]

theorem scroll_when_ticking (s : PerformanceOptimizer) (h : s.ticking = true) :
    s.optimizedScrollHandler = s := by
  simp [PerformanceOptimizer.optimizedScrollHandler, h]

theorem run_scrolls_when_ticking (n : Nat) (s : PerformanceOptimizer) (h : s.ticking = true) :
    s.run (List.replicate n ThrottleEvent.scroll) = s := by
  induction n with
  | zero => rfl
  | succ k ih =>
    rw [List.replicate_succ]
    unfold PerformanceOptimizer.run at ih ⊢
    rw [List.foldl_cons]
    show List.foldl PerformanceOptimizer.step s.optimizedScrollHandler _ = s
    rw [scroll_when_ticking s h]
    exact ih

/-- C10: starting from `ticking = false` with no pending callback, after any
sequence of scroll events and frames at most one callback is pending and
`ticking` is true exactly when one callback is pending; and after a frame,
any number `n + 1` of scroll events before the next frame leaves exactly one
callback scheduled. -/
theorem c10_throttle_invariant (prefersReducedMotion : Bool) (duration : Option String)
    (events : List ThrottleEvent) :
    (PerformanceOptimizer.init prefersReducedMotion duration).ticking = false ∧
    (PerformanceOptimizer.init prefersReducedMotion duration).pendingFrames = 0 ∧
    ((PerformanceOptimizer.init prefersReducedMotion duration).run events).pendingFrames ≤ 1 ∧
    (((PerformanceOptimizer.init prefersReducedMotion duration).run events).ticking = true ↔
      ((PerformanceOptimizer.init prefersReducedMotion duration).run events).pendingFrames = 1) ∧
    (∀ n : Nat,
      ((((PerformanceOptimizer.init prefersReducedMotion duration).run events).frame).run
        (List.replicate (n + 1) ThrottleEvent.scroll)).pendingFrames = 1) := by
  have hinv := run_throttled events _ (init_throttled prefersReducedMotion duration)
  refine ⟨rfl, rfl, hinv.1, hinv.2, ?_⟩
  intro n
  obtain ⟨h0, ht⟩ := frame_idle _ hinv
  rw [List.replicate_succ]
  unfold PerformanceOptimizer.run at *
  rw [List.foldl_cons]
  show (List.foldl PerformanceOptimizer.step
    (PerformanceOptimizer.optimizedScrollHandler _) _).pendingFrames = 1
  have hs : ∀ t : PerformanceOptimizer, t.pendingFrames = 0 → t.ticking = false →
      t.optimizedScrollHandler.ticking = true ∧ t.optimizedScrollHandler.pendingFrames = 1 := by
    intro t hp htk
    simp [PerformanceOptimizer.optimizedScrollHandler, hp, htk]
  obtain ⟨hk, hp⟩ := hs _ h0 ht
  have := run_scrolls_when_ticking n _ hk
  unfold PerformanceOptimizer.run at this
  rw [this]
  exact hp

end Script
